import Mathlib

/-!
Shallow embedding of the PubMed query refinement engine
(`app/services/query_evaluator.py` together with the data shapes of
`app/models/schemas.py`) of the pardinithales/pubmed-agent repository.

Python floats are modelled by exact rationals (`ℚ`); all constants of the
source (0.5, 0.3, 0.1, 0.7, 100, 500, …) are exactly representable, so the
arithmetic of the embedding coincides with the source's real-number intent.
Python's substring test `pat in s` is modelled by `containsSub`, and
Python's truthiness of strings/lists by explicit emptiness tests.
The effectful collaborators of the loop (`PubMedService.search`,
`PubMedService.get_article_abstracts`, and the rewriter
`_generate_refined_query`, which may itself consult fetched abstracts and
an LLM but never raises) are modelled by an `Oracle` of per-call outcome
functions indexed by the iteration number, so every possible run of the
loop is an instance.
-/

namespace PubMedAgent

/-- Helper: `leadsWith l pat` holds when `pat` is an initial segment of
`l` (character-list level step of the substring test). -/
def leadsWith : List Char → List Char → Bool
  | _, [] => true
  | [], _ :: _ => false
  | c :: t, p :: pt => (c == p) && leadsWith t pt

/-- Helper: `hasSub l pat` holds when `pat` occurs as a contiguous
segment of `l`. -/
def hasSub : List Char → List Char → Bool
  | [], pat => pat.isEmpty
  | c :: t, pat => leadsWith (c :: t) pat || hasSub t pat

/-- Python's `pat in s` substring membership test. -/
def containsSub (s pat : String) : Bool :=
  hasSub s.toList pat.toList

/-- ASCII case folding of a character (Python's `str.lower()` restricted
to the ASCII range the evaluator's keyword lists live in). -/
def lowerChar (c : Char) : Char :=
  if 65 ≤ c.toNat ∧ c.toNat ≤ 90 then Char.ofNat (c.toNat + 32) else c

/-- Python's `s.lower()` for the strings compared by the evaluator. -/
def lowerString (s : String) : String :=
  ⟨s.toList.map lowerChar⟩

/-- Model of `PubMedSearchResult` of `app/models/schemas.py`: `sample_titles` is
`Optional` there, `None` and `[]` both behave as "no sample" in the
evaluator. (The `sample_types`/`sample_years` fields are never read by the
evaluator and are omitted.) -/
structure PubMedSearchResult where
  query : String
  total_count : Nat
  ids : List String
  sample_titles : Option (List String)
deriving Repr, DecidableEq

/-- The evaluation dictionary built by
`QueryEvaluator._evaluate_search_result` (its fixed keys become fields). -/
structure Evaluation where
  total_count : Nat
  count_score : ℚ
  primary_studies_ratio : ℚ
  systematic_reviews_ratio : ℚ
  average_relevance : ℚ
  overall_score : ℚ
  issues : String
deriving Repr, DecidableEq

/-- One abstract record as returned by
`PubMedService.get_article_abstracts` (a dict with `title`/`abstract`;
a missing abstract is the empty string, which is falsy in Python). -/
structure Abstract where
  title : String
  abstract : String
deriving Repr, DecidableEq

/-- Model of `QueryIteration` as constructed in `QueryEvaluator.refine_query`
(the evaluator passes `abstracts_sample`; `None` models a skipped or
failed fetch). -/
structure QueryIteration where
  iteration_number : Nat
  query : String
  result_count : Nat
  evaluation : Evaluation
  refinement_reason : String
  abstracts_sample : Option (List Abstract)
deriving Repr, DecidableEq

/-- The `self.keywords["primary_studies"]` list of `QueryEvaluator.__init__`. -/
def primaryKeywords : List String :=
  ["randomized", "trial", "cohort", "case-control", "observational",
   "cross-sectional", "longitudinal", "prospective", "retrospective"]

/-- The `self.keywords["systematic_reviews"]` list of `QueryEvaluator.__init__`. -/
def systematicKeywords : List String :=
  ["systematic review", "meta-analysis", "systematic literature review",
   "evidence synthesis", "umbrella review"]

/-- Model of `QueryEvaluator._calculate_count_score`. -/
def calculate_count_score (count : Nat) : ℚ :=
  if 100 ≤ count ∧ count ≤ 500 then 1
  else if count < 100 then (count : ℚ) / 100
  else if 0 < count then 500 / (count : ℚ)
  else 0

/-- The count-driven branch chain at the top of
`QueryEvaluator._identify_issues` (an `if/elif` chain appending at most
one message; note the source tests `count > 500` before `count > 1000`,
so the `> 1000` arm is the fourth `elif`). -/
def countIssueMessages (count : Nat) : List String :=
  if count < 20 then ["Consulta muito específica, poucos resultados encontrados"]
  else if count < 100 then ["Consulta relativamente específica, considere ampliar os termos"]
  else if 500 < count then ["Consulta muito ampla, considere restringir os termos"]
  else if 1000 < count then ["Consulta extremamente ampla, necessita maior especificidade"]
  else []

/-- Model of `QueryEvaluator._identify_issues`. -/
def identify_issues (count : Nat) (primary_ratio review_ratio : ℚ) : String :=
  let issues := countIssueMessages count
    ++ (if primary_ratio < 0.2 then ["Baixa proporção de estudos primários"] else [])
    ++ (if review_ratio < 0.1 ∧ primary_ratio < 0.3 then
          ["Poucos estudos relevantes encontrados"] else [])
  if issues.isEmpty then "Nenhum problema específico identificado"
  else String.intercalate "; " issues

/-- The test `any(kw.lower() in title_lower for kw in kws)` of
`_evaluate_search_result`'s title scan. -/
def titleMatches (kws : List String) (title : String) : Bool :=
  kws.any fun kw => containsSub (lowerString title) (lowerString kw)

/-- The sample titles actually iterated over (`None` behaves as `[]`). -/
def sampleTitles (r : PubMedSearchResult) : List String :=
  r.sample_titles.getD []

/-- Model of `sample_size = len(result.sample_titles) if result.sample_titles else 1`. -/
def sampleSize (r : PubMedSearchResult) : Nat :=
  if (sampleTitles r).isEmpty then 1 else (sampleTitles r).length

/-- Number of sample titles containing a primary-study keyword. -/
def primaryCount (r : PubMedSearchResult) : Nat :=
  ((sampleTitles r).filter (titleMatches primaryKeywords)).length

/-- Number of sample titles containing a systematic-review keyword. -/
def reviewCount (r : PubMedSearchResult) : Nat :=
  ((sampleTitles r).filter (titleMatches systematicKeywords)).length

/-- Model of `QueryEvaluator._evaluate_search_result`. -/
def evaluate_search_result (r : PubMedSearchResult) : Evaluation :=
  let total_count := r.total_count
  let count_score := calculate_count_score total_count
  let n : ℚ := (sampleSize r : ℚ)
  let pr : ℚ := (primaryCount r : ℚ) / n
  let sr : ℚ := (reviewCount r : ℚ) / n
  let relevance : ℚ := 0.7 * pr + 0.3 * sr
  { total_count := total_count
    count_score := count_score
    primary_studies_ratio := pr
    systematic_reviews_ratio := sr
    average_relevance := relevance
    overall_score := 0.5 * count_score + 0.3 * pr + 0.1 * sr + 0.1 * relevance
    issues := identify_issues total_count pr sr }

/-- Model of `QueryEvaluator._is_query_good_enough`. -/
def is_query_good_enough (e : Evaluation) : Bool :=
  (decide (100 ≤ e.total_count) && decide (e.total_count ≤ 500))
    && decide ((0.3 : ℚ) ≤ e.primary_studies_ratio)
    && decide ((0.7 : ℚ) ≤ e.overall_score)

/-- Model of `QueryEvaluator._get_refinement_reason`. -/
def get_refinement_reason (e : Evaluation) : String :=
  if e.issues = "" ∨ e.issues = "Nenhum problema específico identificado" then
    "Refinamento para melhorar a qualidade geral da consulta"
  else
    "Refinamento necessário para corrigir: " ++ e.issues

/-- The `mode` argument of `QueryEvaluator._refine_with_deepseek_llm`. -/
inductive Mode where
  | expand
  | restrict
  | relevance
deriving Repr, DecidableEq

/-- The `pop_patterns` literals inside `_refine_with_deepseek_llm`. -/
def popPatterns : List String :=
  ["type 2 diabetes", "t2dm", "diabetes mellitus", "diabetic patients",
   "diabetes type 2", "type 2 diabetic"]

/-- The `int_patterns` literals inside `_refine_with_deepseek_llm`. -/
def intervPatterns : List String :=
  ["metformin", "met", "biguanide", "oral antidiabetic",
   "metformin treatment", "metformin therapy"]

/-- The pattern-collection loop of `_refine_with_deepseek_llm`: for each
abstract with a non-empty (truthy) abstract text, append every pattern
occurring in the lowered text that is not yet collected. The population
and intervention collections use independent accumulators in the source,
so collecting each pattern list separately is equivalent. -/
def collectTerms (patterns : List String) (absData : List Abstract) : List String :=
  absData.foldl
    (fun acc a =>
      if a.abstract = "" then acc
      else patterns.foldl
        (fun acc2 pat =>
          if containsSub (lowerString a.abstract) pat && !(acc2.contains pat) then
            acc2 ++ [pat]
          else acc2)
        acc)
    []

/-- The quoting used throughout the rewriter for a `[tiab]` term. -/
def quoteTiab (t : String) : String := "\"" ++ t ++ "\"[tiab]"

/-- Model of `QueryEvaluator._refine_with_deepseek_llm`. The source also extracts
PICOTT sections of the query and builds an LLM prompt, but (the LLM
integration being a TODO) neither value flows into the returned query;
only the simplified term-collection logic below is output-relevant. Its
`try/except` wrapper is vacuous for this pure computation. -/
def refine_with_deepseek_llm (currentQuery : String) (absData : List Abstract)
    (mode : Mode) : String :=
  -- `if not abstracts_text: return current_query`
  if absData.all (fun a => a.abstract = "") then currentQuery
  else
    let popTerms := collectTerms popPatterns absData
    let intTerms := collectTerms intervPatterns absData
    let base :=
      if popTerms.isEmpty then "(\"diabetes type 2\"[tiab] OR \"T2DM\"[tiab])"
      else "(" ++ String.intercalate " OR " ((popTerms.take 3).map quoteTiab) ++ ")"
    let withInt :=
      if intTerms.isEmpty then base ++ " AND (\"metformin\"[tiab])"
      else base ++ " AND ("
        ++ String.intercalate " OR " ((intTerms.take 2).map quoteTiab) ++ ")"
    match mode with
    | .relevance | .restrict =>
        withInt ++ " AND (\"randomized controlled trial\"[tiab] OR \"RCT\"[tiab])"
    | .expand => withInt

/-- The `study_terms` literal of the low-primary-ratio branch of
`_generate_refined_query`. -/
def studyTerms : List String :=
  ["trial", "randomized", "controlled", "cohort", "prospective", "retrospective"]

/-- Model of `QueryEvaluator._generate_refined_query`. The abstract fetch it
performs (`get_article_abstracts(..., sample_size=10)`, with any raised
error caught and the accumulator left at `[]`) is abstracted into the
`absData` argument: `[]` covers both "no ids" and "fetch failed". -/
def generate_refined_query (currentQuery : String) (e : Evaluation)
    (absData : List Abstract) : String :=
  let issues := e.issues
  let total_count := e.total_count
  -- `if not issues: return current_query`
  if issues = "" then currentQuery
  -- `"Consulta muito específica" in issues or total_count < 10`
  else if containsSub issues "Consulta muito específica" || decide (total_count < 10) then
    if !absData.isEmpty then refine_with_deepseek_llm currentQuery absData .expand
    else
      let parts := currentQuery.splitOn " AND "
      if 3 < parts.length then String.intercalate " AND " parts.dropLast
      else
        (currentQuery.replace "[Title]" "[Title/Abstract]").replace
          "[MeSH Terms]" "[MeSH Terms] OR [All Fields]"
  -- `"Consulta muito ampla" in issues or total_count > 100`
  else if containsSub issues "Consulta muito ampla" || decide (100 < total_count) then
    if !absData.isEmpty then refine_with_deepseek_llm currentQuery absData .restrict
    else if 1000 < total_count then
      (currentQuery.replace "[All Fields]" "[tiab]")
        ++ " AND (\"randomized\"[tiab] OR \"controlled\"[tiab])"
    else currentQuery ++ " AND \"human\"[Filter]"
  -- `"Baixa proporção de estudos primários" in issues`
  else if containsSub issues "Baixa proporção de estudos primários" then
    if !absData.isEmpty then
      currentQuery ++ " AND (" ++ String.intercalate " OR " (studyTerms.map quoteTiab) ++ ")"
    else currentQuery ++ " AND (randomized[tiab] OR trial[tiab])"
  -- `"Poucos estudos relevantes" in issues`
  else if containsSub issues "Poucos estudos relevantes" then
    if !absData.isEmpty then refine_with_deepseek_llm currentQuery absData .relevance
    else if !(containsSub currentQuery "systematic") then
      currentQuery.replace "]" "] AND (\"effect\"[tiab] OR \"outcome\"[tiab])"
    else currentQuery
  else currentQuery

/-- The effectful collaborators of one run of `refine_query`, indexed by
the iteration number that performs the call: `search` models
`PubMedService.search` (which raises `HTTPException` on failure, modelled
as `Except.error`), `fetchAbstracts` models
`PubMedService.get_article_abstracts`, and `rewrite` models the value
returned by `_generate_refined_query` (which never raises: its fetch is
caught internally and its LLM helper is wrapped in `try/except`). -/
structure Oracle where
  search : Nat → String → Except String PubMedSearchResult
  fetchAbstracts : Nat → List String → Nat → Except String (List Abstract)
  rewrite : Nat → String → Evaluation → PubMedSearchResult → String

/-- The per-iteration abstract sampling of `refine_query`: skipped when
there are no ids, attempted with `sample_size=5` otherwise, and a raised
error is caught leaving `abstracts_sample = None`. -/
def getSample (o : Oracle) (i : Nat) (ids : List String) : Option (List Abstract) :=
  if ids.isEmpty then none
  else
    match o.fetchAbstracts i ids 5 with
    | .ok l => some l
    | .error _ => none

/-- The `for i in range(2, max_iterations + 1)` refinement cycle of
`QueryEvaluator.refine_query`, with `fuel` remaining loop iterations and
`i` the current iteration number. The state triple returned on normal
termination records the `best_query`, `best_score` and `iterations`
variables at the `return`; a search failure propagates as `.error`. -/
def refineLoop (o : Oracle) (fuel i : Nat) (current : String) (eval : Evaluation)
    (sr : PubMedSearchResult) (best : String) (bestScore : ℚ)
    (hist : List QueryIteration) : Except String (String × ℚ × List QueryIteration) :=
  match fuel with
  | 0 => .ok (best, bestScore, hist)
  | fuel' + 1 =>
    let refined := o.rewrite i current eval sr
    -- `if refined_query == current_query: break`
    if refined = current then .ok (best, bestScore, hist)
    else
      match o.search i refined with
      | .error e => .error e
      | .ok sr' =>
        let eval' := evaluate_search_result sr'
        let score := eval'.overall_score
        let record : QueryIteration :=
          { iteration_number := i
            query := refined
            result_count := sr'.total_count
            evaluation := eval'
            refinement_reason := get_refinement_reason eval'
            abstracts_sample := getSample o i sr'.ids }
        let hist' := hist ++ [record]
        let best' := if bestScore < score then refined else best
        let bestScore' := if bestScore < score then score else bestScore
        if is_query_good_enough eval' then .ok (best', bestScore', hist')
        else refineLoop o fuel' (i + 1) refined eval' sr' best' bestScore' hist'

/-- Model of `QueryEvaluator.refine_query`, returning the full loop state
`(best_query, best_score, iterations)` as of the executed `return`.
On the first-iteration good-enough early return the source returns
`current_query` with `best_query`/`best_score` still at their
initializations (`initial_query`, `0.0`): the returned triple is
`(initial, 0, hist)` there. The `best_query`/`best_score` update runs
only after that check, and strictly (`score > best_score`). -/
def refineRun (o : Oracle) (initial : String) (maxIterations : Nat) :
    Except String (String × ℚ × List QueryIteration) :=
  match o.search 1 initial with
  | .error e => .error e
  | .ok sr =>
    let eval := evaluate_search_result sr
    let score := eval.overall_score
    let record : QueryIteration :=
      { iteration_number := 1
        query := initial
        result_count := sr.total_count
        evaluation := eval
        refinement_reason := "Consulta inicial gerada a partir do texto PICOTT"
        abstracts_sample := getSample o 1 sr.ids }
    let hist := [record]
    if is_query_good_enough eval then .ok (initial, 0, hist)
    else
      let bestScore := if (0 : ℚ) < score then score else 0
      refineLoop o (maxIterations - 1) 2 initial eval sr initial bestScore hist

/-- The public surface of `QueryEvaluator.refine_query`:
`Tuple[str, List[QueryIteration]]`, or a propagated search failure. -/
def refine_query (o : Oracle) (initial : String) (maxIterations : Nat) :
    Except String (String × List QueryIteration) :=
  (refineRun o initial maxIterations).map fun r => (r.1, r.2.2)

/-- The `overall_score` of an iteration record. -/
def iterScore (it : QueryIteration) : ℚ :=
  it.evaluation.overall_score

/-- The value `max(evaluation.overall_score for all iterations so far)`, folded from
the same initialization `0.0` the source gives `best_score`. -/
def maxScore (h : List QueryIteration) : ℚ :=
  h.foldl (fun m it => max m (iterScore it)) 0

/-- The earliest recorded iteration achieving the maximal
`overall_score`. -/
def firstBest (h : List QueryIteration) : Option QueryIteration :=
  h.find? fun it => decide (iterScore it = maxScore h)

/-- The specification's best-tracking invariant: `best_score` equals the
maximum `overall_score` recorded so far and `best_query` is the query of
the earliest iteration achieving it. -/
def BestInv (best : String) (bs : ℚ) (hist : List QueryIteration) : Prop :=
  bs = maxScore hist ∧ ∃ it, firstBest hist = some it ∧ it.query = best

/-- Forget the abstracts enrichment of a record (what a failed
`get_article_abstracts` degrades it to). -/
def clearSample (it : QueryIteration) : QueryIteration :=
  { it with abstracts_sample := none }

/-- The fixed convex combination computing `overall_score` in
`_evaluate_search_result` (weights 0.5/0.3/0.1/0.1). -/
def overallFormula (c p r v : ℚ) : ℚ :=
  0.5 * c + 0.3 * p + 0.1 * r + 0.1 * v

/-- A concrete search outcome: 300 hits, one sampled title containing the
primary-study keyword "trial" — its evaluation satisfies the good-enough
predicate at the first iteration. -/
def goodResult : PubMedSearchResult :=
  { query := "q", total_count := 300, ids := [], sample_titles := some ["trial"] }

/-- Oracle whose every search returns `goodResult`, whose abstract fetches
all fail, and whose rewriter is the identity. -/
def oGood : Oracle :=
  { search := fun _ _ => .ok goodResult
    fetchAbstracts := fun _ _ _ => .error "fetch down"
    rewrite := fun _ q _ _ => q }

/-- The iteration record produced by the first (and only) iteration of
`refineRun oGood "q" _`. -/
def iterGood : QueryIteration :=
  { iteration_number := 1
    query := "q"
    result_count := 300
    evaluation := evaluate_search_result goodResult
    refinement_reason := "Consulta inicial gerada a partir do texto PICOTT"
    abstracts_sample := none }

/-- An evaluation carrying the no-issue sentinel with a `total_count`
inside `[10, 100]`. -/
def cleanEval50 : Evaluation :=
  { total_count := 50
    count_score := 1/2
    primary_studies_ratio := 1
    systematic_reviews_ratio := 1
    average_relevance := 1
    overall_score := 1
    issues := "Nenhum problema específico identificado" }

/-- Oracle whose every search fails (a raised `HTTPException` of
`PubMedService.search`). -/
def oFail : Oracle :=
  { search := fun _ _ => .error "HTTP 503"
    fetchAbstracts := fun _ _ _ => .ok []
    rewrite := fun _ q _ _ => q }


lemma foldl_max_init_le (l : List QueryIteration) (a : ℚ) :
    a ≤ l.foldl (fun m it => max m (iterScore it)) a := by
  induction l generalizing a with
  | nil => simp
  | cons x t ih => exact le_trans (le_max_left a (iterScore x)) (ih _)

lemma le_foldl_max {it : QueryIteration} {l : List QueryIteration} (a : ℚ)
    (h : it ∈ l) : iterScore it ≤ l.foldl (fun m it => max m (iterScore it)) a := by
  induction l generalizing a with
  | nil => cases h
  | cons x t ih =>
    rcases List.mem_cons.mp h with hx | ht
    · subst hx
      exact le_trans (le_max_right a (iterScore it)) (foldl_max_init_le t _)
    · exact ih _ ht

lemma le_maxScore {it : QueryIteration} {hist : List QueryIteration}
    (h : it ∈ hist) : iterScore it ≤ maxScore hist :=
  le_foldl_max 0 h

lemma maxScore_append (hist : List QueryIteration) (it : QueryIteration) :
    maxScore (hist ++ [it]) = max (maxScore hist) (iterScore it) := by
  simp [maxScore, List.foldl_append]

lemma head?_append_left {hist : List QueryIteration} (hne : hist ≠ [])
    (l : List QueryIteration) : (hist ++ l).head? = hist.head? := by
  cases hist with
  | nil => exact absurd rfl hne
  | cons a t => rfl

lemma BestInv_step (best : String) (bs : ℚ) (hist : List QueryIteration)
    (it : QueryIteration) (h : BestInv best bs hist) :
    BestInv (if bs < iterScore it then it.query else best)
      (if bs < iterScore it then iterScore it else bs) (hist ++ [it]) := by
  obtain ⟨hbs, it0, hfind, hq⟩ := h
  by_cases hlt : bs < iterScore it
  · have hmax : maxScore (hist ++ [it]) = iterScore it := by
      rw [maxScore_append, ← hbs, max_eq_right hlt.le]
    refine ⟨by simp [hlt, hmax], it, ?_, by simp [hlt]⟩
    unfold firstBest
    rw [List.find?_append]
    have hnone : hist.find? (fun x => decide (iterScore x = maxScore (hist ++ [it]))) = none := by
      rw [List.find?_eq_none]
      intro x hx hpx
      rw [decide_eq_true_eq, hmax] at hpx
      have hle := le_maxScore hx
      rw [← hbs] at hle
      exact absurd hpx (ne_of_lt (lt_of_le_of_lt hle hlt))
    rw [hnone]
    simp [hmax]
  · push_neg at hlt
    have hmax : maxScore (hist ++ [it]) = maxScore hist := by
      rw [maxScore_append, ← hbs, max_eq_left hlt]
    simp only [if_neg (not_lt.mpr hlt)]
    refine ⟨by rw [hmax, hbs], it0, ?_, hq⟩
    unfold firstBest at hfind ⊢
    rw [List.find?_append]
    simp only [hmax]
    rw [hfind]
    rfl

lemma calculate_count_score_nonneg (c : Nat) : 0 ≤ calculate_count_score c := by
  unfold calculate_count_score
  split_ifs <;> positivity

lemma overall_nonneg (r : PubMedSearchResult) :
    0 ≤ (evaluate_search_result r).overall_score := by
  have h1 := calculate_count_score_nonneg r.total_count
  have h2 : (0 : ℚ) ≤ (primaryCount r : ℚ) / (sampleSize r : ℚ) := by positivity
  have h3 : (0 : ℚ) ≤ (reviewCount r : ℚ) / (sampleSize r : ℚ) := by positivity
  simp only [evaluate_search_result]
  linarith

lemma BestInv_init (init : String) (r1 : QueryIteration) (h0 : 0 ≤ iterScore r1)
    (hq : r1.query = init) :
    BestInv init (if 0 < iterScore r1 then iterScore r1 else 0) [r1] := by
  have hmax : maxScore [r1] = iterScore r1 := by
    simp only [maxScore, List.foldl]
    exact max_eq_right h0
  refine ⟨?_, r1, ?_, hq⟩
  · by_cases h : 0 < iterScore r1
    · rw [if_pos h, hmax]
    · rw [if_neg h, hmax]
      push_neg at h
      linarith
  · simp [firstBest, hmax, List.find?]

lemma refineLoop_ok_spec (fuel : Nat) (o : Oracle) (i : Nat) (current : String)
    (eval : Evaluation) (sr : PubMedSearchResult) (best : String) (bs : ℚ)
    (hist : List QueryIteration) (b : String) (s : ℚ) (h : List QueryIteration)
    (hInv : BestInv best bs hist)
    (hGood : ∀ it ∈ hist, is_query_good_enough it.evaluation = false)
    (hne : hist ≠ [])
    (hrun : refineLoop o fuel i current eval sr best bs hist = .ok (b, s, h)) :
    BestInv b s h ∧ h.head? = hist.head? ∧ h.length ≤ hist.length + fuel ∧
      (∀ it ∈ h.dropLast, is_query_good_enough it.evaluation = false) ∧ h ≠ [] := by
  induction fuel generalizing i current eval sr best bs hist b s h with
  | zero =>
    simp only [refineLoop, Except.ok.injEq, Prod.mk.injEq] at hrun
    obtain ⟨hb, hs, hh⟩ := hrun
    subst hb; subst hs; subst hh
    exact ⟨hInv, rfl, by omega,
      fun it hit => hGood it (List.dropLast_subset _ hit), hne⟩
  | succ fuel' ih =>
    simp only [refineLoop] at hrun
    by_cases heq : o.rewrite i current eval sr = current
    · rw [if_pos heq] at hrun
      simp only [Except.ok.injEq, Prod.mk.injEq] at hrun
      obtain ⟨hb, hs, hh⟩ := hrun
      subst hb; subst hs; subst hh
      exact ⟨hInv, rfl, by omega,
        fun it hit => hGood it (List.dropLast_subset _ hit), hne⟩
    · rw [if_neg heq] at hrun
      cases hsearch : o.search i (o.rewrite i current eval sr) with
      | error e => rw [hsearch] at hrun; cases hrun
      | ok sr' =>
        rw [hsearch] at hrun
        dsimp only at hrun
        by_cases hg : is_query_good_enough (evaluate_search_result sr') = true
        · rw [if_pos hg] at hrun
          simp only [Except.ok.injEq, Prod.mk.injEq] at hrun
          obtain ⟨hb, hs, hh⟩ := hrun
          subst hb; subst hs; subst hh
          refine ⟨?_, head?_append_left hne _, by simp, ?_, by simp⟩
          · simpa [iterScore] using
              BestInv_step best bs hist
                { iteration_number := i
                  query := o.rewrite i current eval sr
                  result_count := sr'.total_count
                  evaluation := evaluate_search_result sr'
                  refinement_reason := get_refinement_reason (evaluate_search_result sr')
                  abstracts_sample := getSample o i sr'.ids } hInv
          · rw [List.dropLast_concat]
            exact hGood
        · rw [if_neg hg] at hrun
          have hgf : is_query_good_enough (evaluate_search_result sr') = false := by
            revert hg; cases is_query_good_enough (evaluate_search_result sr') <;> simp
          have hInv' := BestInv_step best bs hist
            { iteration_number := i
              query := o.rewrite i current eval sr
              result_count := sr'.total_count
              evaluation := evaluate_search_result sr'
              refinement_reason := get_refinement_reason (evaluate_search_result sr')
              abstracts_sample := getSample o i sr'.ids } hInv
          have hGood' : ∀ it ∈ hist ++
              [{ iteration_number := i
                 query := o.rewrite i current eval sr
                 result_count := sr'.total_count
                 evaluation := evaluate_search_result sr'
                 refinement_reason := get_refinement_reason (evaluate_search_result sr')
                 abstracts_sample := getSample o i sr'.ids }],
              is_query_good_enough it.evaluation = false := by
            intro it hit
            rcases List.mem_append.mp hit with hmem | hmem
            · exact hGood it hmem
            · rw [List.mem_singleton.mp hmem]
              exact hgf
          obtain ⟨hInvR, hhead, hlen, hdrop, hneR⟩ :=
            ih (i + 1) (o.rewrite i current eval sr) (evaluate_search_result sr') sr' _ _ _
              b s h (by simpa [iterScore] using hInv') hGood' (by simp) hrun
          refine ⟨hInvR, ?_, ?_, hdrop, hneR⟩
          · rw [hhead, head?_append_left hne]
          · simp only [List.length_append, List.length_singleton] at hlen
            omega

lemma refineLoop_error_spec (fuel : Nat) (o : Oracle) (i : Nat) (current : String)
    (eval : Evaluation) (sr : PubMedSearchResult) (best : String) (bs : ℚ)
    (hist : List QueryIteration) (e : String)
    (hrun : refineLoop o fuel i current eval sr best bs hist = .error e) :
    ∃ j q, o.search j q = .error e := by
  induction fuel generalizing i current eval sr best bs hist with
  | zero =>
    simp only [refineLoop] at hrun
    cases hrun
  | succ fuel' ih =>
    simp only [refineLoop] at hrun
    by_cases heq : o.rewrite i current eval sr = current
    · rw [if_pos heq] at hrun; cases hrun
    · rw [if_neg heq] at hrun
      cases hsearch : o.search i (o.rewrite i current eval sr) with
      | error e' =>
        rw [hsearch] at hrun
        dsimp only at hrun
        cases hrun
        exact ⟨i, o.rewrite i current eval sr, hsearch⟩
      | ok sr' =>
        rw [hsearch] at hrun
        dsimp only at hrun
        by_cases hg : is_query_good_enough (evaluate_search_result sr') = true
        · rw [if_pos hg] at hrun; cases hrun
        · rw [if_neg hg] at hrun
          exact ih _ _ _ _ _ _ _ hrun

lemma getSample_failFetch (o : Oracle) (e0 : String) (i : Nat) (ids : List String) :
    getSample { o with fetchAbstracts := fun _ _ _ => .error e0 } i ids = none := by
  unfold getSample
  split <;> rfl

lemma refineLoop_failFetch (e0 : String) (fuel : Nat) (o : Oracle) (i : Nat)
    (current : String) (eval : Evaluation) (sr : PubMedSearchResult) (best : String)
    (bs : ℚ) (hist : List QueryIteration) :
    refineLoop { o with fetchAbstracts := fun _ _ _ => .error e0 } fuel i current eval
        sr best bs (hist.map clearSample)
      = (refineLoop o fuel i current eval sr best bs hist).map
          (fun r => (r.1, r.2.1, r.2.2.map clearSample)) := by
  induction fuel generalizing i current eval sr best bs hist with
  | zero => simp [refineLoop, Except.map]
  | succ fuel' ih =>
    simp only [refineLoop]
    by_cases heq : o.rewrite i current eval sr = current
    · rw [if_pos heq, if_pos heq]
      rfl
    · rw [if_neg heq, if_neg heq]
      cases hsearch : o.search i (o.rewrite i current eval sr) with
      | error e' => rfl
      | ok sr' =>
        dsimp only
        by_cases hg : is_query_good_enough (evaluate_search_result sr') = true
        · rw [if_pos hg, if_pos hg]
          simp only [Except.map, getSample_failFetch, clearSample, List.map_append]
          rfl
        · rw [if_neg hg, if_neg hg]
          have := ih (i + 1) (o.rewrite i current eval sr) (evaluate_search_result sr') sr'
            (if bs < (evaluate_search_result sr').overall_score then o.rewrite i current eval sr else best)
            (if bs < (evaluate_search_result sr').overall_score then (evaluate_search_result sr').overall_score else bs)
            (hist ++
              [{ iteration_number := i
                 query := o.rewrite i current eval sr
                 result_count := sr'.total_count
                 evaluation := evaluate_search_result sr'
                 refinement_reason := get_refinement_reason (evaluate_search_result sr')
                 abstracts_sample := getSample o i sr'.ids }])
          rw [← this]
          congr 1
          simp [clearSample, getSample_failFetch, List.map_append]

lemma refineRun_ok_spec (o : Oracle) (init : String) (k : Nat) (b : String) (s : ℚ)
    (h : List QueryIteration)
    (hrun : refineRun o init k = .ok (b, s, h)) :
    (∃ r1, h.head? = some r1 ∧ r1.iteration_number = 1 ∧ r1.query = init) ∧
      (∃ it, firstBest h = some it ∧ it.query = b) ∧
      (s = maxScore h ∨
        (s = 0 ∧ ∃ r, h = [r] ∧ is_query_good_enough r.evaluation = true)) ∧
      h.length ≤ 1 + (k - 1) ∧
      (∀ it ∈ h.dropLast, is_query_good_enough it.evaluation = false) ∧
      h ≠ [] := by
  simp only [refineRun] at hrun
  cases hsearch : o.search 1 init with
  | error e => rw [hsearch] at hrun; cases hrun
  | ok sr =>
    rw [hsearch] at hrun
    dsimp only at hrun
    have hnn : 0 ≤ iterScore
        { iteration_number := 1
          query := init
          result_count := sr.total_count
          evaluation := evaluate_search_result sr
          refinement_reason := "Consulta inicial gerada a partir do texto PICOTT"
          abstracts_sample := getSample o 1 sr.ids } := overall_nonneg sr
    by_cases hg : is_query_good_enough (evaluate_search_result sr) = true
    · rw [if_pos hg] at hrun
      simp only [Except.ok.injEq, Prod.mk.injEq] at hrun
      obtain ⟨hb, hs, hh⟩ := hrun
      subst hb; subst hs; subst hh
      obtain ⟨-, it, hfb, hq⟩ := BestInv_init init _ hnn rfl
      exact ⟨⟨_, rfl, rfl, rfl⟩, ⟨it, hfb, hq⟩,
        Or.inr ⟨rfl, _, rfl, hg⟩, by simp, by simp, by simp⟩
    · rw [if_neg hg] at hrun
      have hgf : is_query_good_enough (evaluate_search_result sr) = false := by
        revert hg; cases is_query_good_enough (evaluate_search_result sr) <;> simp
      obtain ⟨⟨hs, it, hfb, hq⟩, hhead, hlen, hdrop, hneR⟩ :=
        refineLoop_ok_spec (k - 1) o 2 init (evaluate_search_result sr) sr init _ _ b s h
          (BestInv_init init _ hnn rfl)
          (by intro it hit
              rw [List.mem_singleton.mp hit]
              exact hgf)
          (by simp) hrun
      refine ⟨⟨_, by rw [hhead]; rfl, rfl, rfl⟩, ⟨it, hfb, hq⟩, Or.inl hs, ?_, hdrop, hneR⟩
      simpa using hlen

lemma refineRun_error_spec (o : Oracle) (init : String) (k : Nat) (e : String)
    (hrun : refineRun o init k = .error e) :
    ∃ j q, o.search j q = .error e := by
  simp only [refineRun] at hrun
  cases hsearch : o.search 1 init with
  | error e' =>
    rw [hsearch] at hrun
    cases hrun
    exact ⟨1, init, hsearch⟩
  | ok sr =>
    rw [hsearch] at hrun
    dsimp only at hrun
    by_cases hg : is_query_good_enough (evaluate_search_result sr) = true
    · rw [if_pos hg] at hrun; cases hrun
    · rw [if_neg hg] at hrun
      exact refineLoop_error_spec _ _ _ _ _ _ _ _ _ _ hrun

lemma refineRun_failFetch (e0 : String) (o : Oracle) (init : String) (k : Nat) :
    refineRun { o with fetchAbstracts := fun _ _ _ => .error e0 } init k
      = (refineRun o init k).map (fun r => (r.1, r.2.1, r.2.2.map clearSample)) := by
  simp only [refineRun]
  cases hsearch : o.search 1 init with
  | error e => rfl
  | ok sr =>
    dsimp only
    by_cases hg : is_query_good_enough (evaluate_search_result sr) = true
    · rw [if_pos hg, if_pos hg]
      simp [Except.map, clearSample, getSample_failFetch]
    · rw [if_neg hg, if_neg hg]
      have hacc :
          [({ iteration_number := 1, query := init, result_count := sr.total_count,
              evaluation := evaluate_search_result sr,
              refinement_reason := "Consulta inicial gerada a partir do texto PICOTT",
              abstracts_sample :=
                getSample { o with fetchAbstracts := fun _ _ _ => .error e0 } 1 sr.ids } :
            QueryIteration)]
            = List.map clearSample
              [{ iteration_number := 1, query := init, result_count := sr.total_count,
                 evaluation := evaluate_search_result sr,
                 refinement_reason := "Consulta inicial gerada a partir do texto PICOTT",
                 abstracts_sample := getSample o 1 sr.ids }] := by
        simp [clearSample, getSample_failFetch]
      rw [hacc, refineLoop_failFetch]


lemma eval_goodResult : evaluate_search_result goodResult =
    { total_count := 300
      count_score := 1
      primary_studies_ratio := 1
      systematic_reviews_ratio := 0
      average_relevance := 7/10
      overall_score := 87/100
      issues := "Nenhum problema específico identificado" } := by
  norm_num [evaluate_search_result, calculate_count_score, primaryCount, reviewCount,
    sampleSize, sampleTitles, goodResult, titleMatches, primaryKeywords,
    systematicKeywords, containsSub, hasSub, leadsWith, lowerString, lowerChar,
    List.filter, List.any, identify_issues, countIssueMessages, Evaluation.mk.injEq]

lemma good_goodResult : is_query_good_enough (evaluate_search_result goodResult) = true := by
  rw [eval_goodResult]
  simp only [is_query_good_enough, Bool.and_eq_true, decide_eq_true_eq]
  norm_num

lemma refineRun_oGood : refineRun oGood "q" 5 = .ok ("q", 0, [iterGood]) := by
  simp only [refineRun, oGood]
  rw [if_pos good_goodResult]
  simp [getSample, goodResult, iterGood, oGood]

lemma refine_query_oGood : refine_query oGood "q" 5 = .ok ("q", [iterGood]) := by
  rw [refine_query, refineRun_oGood]
  rfl

/-- C1 (counterexample): on a run whose first query is already good enough
(300 hits, primary ratio 1, overall 0.87) `refine_query` returns at once
with the internal `best_score` still at its initialization `0.0`, while the
maximum recorded `overall_score` is `0.87` — so "at return `best_score`
equals the maximum over all recorded iterations" fails at this input. -/
theorem c1_best_tracking_counterexample :
    refineRun oGood "q" 5 = .ok ("q", 0, [iterGood]) ∧
    maxScore [iterGood] = 87/100 ∧ (0 : ℚ) ≠ 87/100 := by
  refine ⟨refineRun_oGood, ?_, by norm_num⟩
  simp only [maxScore, iterScore, List.foldl, iterGood, eval_goodResult]
  norm_num

/-- C1 (amended): in every normally returning run, `best_query` is the
query of the earliest recorded iteration achieving the maximal
`overall_score`; `best_score` equals that maximum except on the run whose
first iteration already satisfies the good-enough predicate, where the
early return leaves `best_score` at its initialization `0.0` (updates
happen only on strict improvement, after that check). -/
theorem c1_best_tracking (o : Oracle) (init : String) (k : Nat) (b : String)
    (s : ℚ) (h : List QueryIteration)
    (hrun : refineRun o init k = .ok (b, s, h)) :
    (∃ it, firstBest h = some it ∧ it.query = b) ∧
    (s = maxScore h ∨
      (s = 0 ∧ ∃ r, h = [r] ∧ is_query_good_enough r.evaluation = true)) := by
  obtain ⟨-, hfb, hdisj, -, -, -⟩ := refineRun_ok_spec o init k b s h hrun
  exact ⟨hfb, hdisj⟩

/-- Witness for the amended C1 at the concrete good-enough run. -/
theorem c1_best_tracking_witness :
    (∃ it, firstBest [iterGood] = some it ∧ it.query = "q") ∧
    ((0 : ℚ) = maxScore [iterGood] ∨
      ((0 : ℚ) = 0 ∧ ∃ r, [iterGood] = [r] ∧
        is_query_good_enough r.evaluation = true)) :=
  c1_best_tracking oGood "q" 5 "q" 0 [iterGood] refineRun_oGood

/-- C2: `_is_query_good_enough` is exactly the conjunction
`100 ≤ total_count ≤ 500 ∧ primary_studies_ratio ≥ 0.3 ∧
overall_score ≥ 0.7`; and in every normally returning run only the last
recorded iteration can satisfy it, so once it holds no further iteration
(hence no further search, one search per record) is executed. -/
theorem c2_good_enough (o : Oracle) (init : String) (k : Nat) :
    (∀ e : Evaluation, is_query_good_enough e = true ↔
      (100 ≤ e.total_count ∧ e.total_count ≤ 500 ∧
        (0.3 : ℚ) ≤ e.primary_studies_ratio ∧ (0.7 : ℚ) ≤ e.overall_score)) ∧
    (∀ (b : String) (s : ℚ) (h : List QueryIteration),
      refineRun o init k = .ok (b, s, h) →
      ∀ it ∈ h.dropLast, is_query_good_enough it.evaluation = false) := by
  constructor
  · intro e
    simp [is_query_good_enough, Bool.and_eq_true, decide_eq_true_eq, and_assoc]
  · intro b s h hrun
    obtain ⟨-, -, -, -, hdrop, -⟩ := refineRun_ok_spec o init k b s h hrun
    exact hdrop

/-- Witness for C2 at the concrete good-enough evaluation and run. -/
theorem c2_good_enough_witness :
    (100 ≤ (evaluate_search_result goodResult).total_count ∧
      (evaluate_search_result goodResult).total_count ≤ 500 ∧
      (0.3 : ℚ) ≤ (evaluate_search_result goodResult).primary_studies_ratio ∧
      (0.7 : ℚ) ≤ (evaluate_search_result goodResult).overall_score) ∧
    (∀ it ∈ ([iterGood] : List QueryIteration).dropLast,
      is_query_good_enough it.evaluation = false) :=
  ⟨((c2_good_enough oGood "q" 5).1 _).mp good_goodResult,
   (c2_good_enough oGood "q" 5).2 "q" 0 [iterGood] refineRun_oGood⟩

/-- C3: `_calculate_count_score` is the stated piecewise function —
1 on [100,500], n/100 below (0 at 0, 0.99 at 99), 500/n above — strictly
increasing on [0,100) and strictly decreasing on (500,∞). -/
theorem c3_count_score :
    (∀ n : Nat, 100 ≤ n → n ≤ 500 → calculate_count_score n = 1) ∧
    (∀ n : Nat, n < 100 → calculate_count_score n = (n : ℚ) / 100) ∧
    (∀ n : Nat, 500 < n → calculate_count_score n = 500 / (n : ℚ)) ∧
    calculate_count_score 0 = 0 ∧
    calculate_count_score 99 = 99 / 100 ∧
    (∀ a b : Nat, a < b → b < 100 →
      calculate_count_score a < calculate_count_score b) ∧
    (∀ a b : Nat, 500 < a → a < b →
      calculate_count_score b < calculate_count_score a) := by
  have hin : ∀ n : Nat, 100 ≤ n → n ≤ 500 → calculate_count_score n = 1 := by
    intro n h1 h2
    unfold calculate_count_score
    rw [if_pos ⟨h1, h2⟩]
  have hlow : ∀ n : Nat, n < 100 → calculate_count_score n = (n : ℚ) / 100 := by
    intro n hn
    unfold calculate_count_score
    rw [if_neg (by omega), if_pos hn]
  have hhigh : ∀ n : Nat, 500 < n → calculate_count_score n = 500 / (n : ℚ) := by
    intro n hn
    unfold calculate_count_score
    rw [if_neg (by omega), if_neg (by omega), if_pos (by omega)]
  refine ⟨hin, hlow, hhigh, ?_, ?_, ?_, ?_⟩
  · rw [hlow 0 (by omega)]; norm_num
  · rw [hlow 99 (by omega)]; norm_num
  · intro a b hab hb
    rw [hlow a (by omega), hlow b hb]
    have : (a : ℚ) < (b : ℚ) := by exact_mod_cast hab
    linarith
  · intro a b ha hab
    rw [hhigh a ha, hhigh b (by omega)]
    have h0 : (0 : ℚ) < (a : ℚ) := by
      have ha0 : 0 < a := by omega
      exact_mod_cast ha0
    have hcast : (a : ℚ) < (b : ℚ) := by exact_mod_cast hab
    exact div_lt_div_of_pos_left (by norm_num) h0 hcast

/-- Witness for C3 at concrete counts. -/
theorem c3_count_score_witness :
    calculate_count_score 300 = 1 ∧
    calculate_count_score 42 = (42 : ℚ) / 100 ∧
    calculate_count_score 1000 = 500 / (1000 : ℚ) ∧
    calculate_count_score 5 < calculate_count_score 6 ∧
    calculate_count_score 600 < calculate_count_score 501 := by
  refine ⟨c3_count_score.1 300 (by omega) (by omega), ?_, ?_,
    c3_count_score.2.2.2.2.2.1 5 6 (by omega) (by omega),
    c3_count_score.2.2.2.2.2.2 501 600 (by omega) (by omega)⟩
  · have := c3_count_score.2.1 42 (by omega)
    rw [this]; norm_num
  · have := c3_count_score.2.2.1 1000 (by omega)
    rw [this]; norm_num

/-- C4 (code is wrong): because `_identify_issues` tests `count > 500`
in an `elif` chain before `count > 1000`, the escalated "extremamente
ampla" diagnosis is unreachable — every `total_count > 1000` (e.g. 1500)
yields only the plain "muito ampla" message. -/
theorem c4_escalation_unreachable :
    (∀ c : Nat, 1000 < c →
      countIssueMessages c = ["Consulta muito ampla, considere restringir os termos"]) ∧
    identify_issues 1500 1 1 = "Consulta muito ampla, considere restringir os termos" ∧
    identify_issues 1500 1 1 ≠
      "Consulta extremamente ampla, necessita maior especificidade" := by
  have hmsg : ∀ c : Nat, 1000 < c →
      countIssueMessages c = ["Consulta muito ampla, considere restringir os termos"] := by
    intro c hc
    unfold countIssueMessages
    rw [if_neg (by omega), if_neg (by omega), if_pos (by omega)]
  have h1500 : identify_issues 1500 1 1 =
      "Consulta muito ampla, considere restringir os termos" := by
    simp only [identify_issues, hmsg 1500 (by omega)]
    norm_num
    rfl
  exact ⟨hmsg, h1500, by rw [h1500]; decide⟩

/-- Witness for C4 at `total_count = 1500`. -/
theorem c4_escalation_unreachable_witness :
    countIssueMessages 1500 =
      ["Consulta muito ampla, considere restringir os termos"] :=
  c4_escalation_unreachable.1 1500 (by omega)

/-- C5 (counterexample): an evaluation carrying the no-issue sentinel but
`total_count = 300` (a value the evaluator really produces, e.g. on
`goodResult`) makes `_generate_refined_query` append `AND "human"[Filter]`
instead of returning the query unchanged: the sentinel string is truthy,
so only the `total_count > 100` test decides the broad branch. -/
theorem c5_clean_rewrite_counterexample :
    generate_refined_query "q" (evaluate_search_result goodResult) [] =
      "q AND \"human\"[Filter]" ∧
    ("q AND \"human\"[Filter]" : String) ≠ "q" := by
  constructor
  · rw [eval_goodResult]
    decide
  · decide

/-- C5 (amended): on the no-issue sentinel the rewriter returns the query
unchanged — regardless of abstracts — provided `total_count` lies in
`[10, 100]`, where no count-triggered fallback branch fires. -/
theorem c5_clean_noop (q : String) (e : Evaluation) (absData : List Abstract)
    (hsent : e.issues = "Nenhum problema específico identificado")
    (h10 : 10 ≤ e.total_count) (h100 : e.total_count ≤ 100) :
    generate_refined_query q e absData = q := by
  simp only [generate_refined_query, hsent]
  rw [if_neg (by decide)]
  rw [if_neg ?h1]
  rw [if_neg ?h2]
  rw [if_neg ?h3]
  rw [if_neg ?h4]
  case h1 =>
    simp only [Bool.or_eq_true, decide_eq_true_eq]
    push_neg
    refine ⟨?_, by omega⟩
    intro hc
    exact absurd hc (by decide)
  case h2 =>
    simp only [Bool.or_eq_true, decide_eq_true_eq]
    push_neg
    refine ⟨?_, by omega⟩
    intro hc
    exact absurd hc (by decide)
  case h3 => decide
  case h4 => decide

/-- Witness for the amended C5 at a concrete clean evaluation. -/
theorem c5_clean_noop_witness :
    cleanEval50.issues = "Nenhum problema específico identificado" ∧
    10 ≤ cleanEval50.total_count ∧ cleanEval50.total_count ≤ 100 ∧
    generate_refined_query "q" cleanEval50 [] = "q" :=
  ⟨rfl, by decide, by decide,
    c5_clean_noop "q" cleanEval50 [] rfl (by decide) (by decide)⟩

/-- C6: whenever the rewriter returns the current query unchanged, the
loop returns its accumulated state at once — no record is appended and
the result does not consult the search backend at all (it is the same for
every substituted search function). -/
theorem c6_no_progress_stop (o : Oracle) (fuel i : Nat) (current : String)
    (eval : Evaluation) (sr : PubMedSearchResult) (best : String) (bs : ℚ)
    (hist : List QueryIteration)
    (hstall : o.rewrite i current eval sr = current)
    (s' : Nat → String → Except String PubMedSearchResult) :
    refineLoop { o with search := s' } fuel i current eval sr best bs hist =
      .ok (best, bs, hist) := by
  cases fuel with
  | zero => rfl
  | succ fuel' =>
    simp only [refineLoop]
    rw [if_pos hstall]

/-- Witness for C6 with the identity rewriter. -/
theorem c6_no_progress_stop_witness :
    oGood.rewrite 2 "q" (evaluate_search_result goodResult) goodResult = "q" ∧
    refineLoop { oGood with search := oGood.search } 3 2 "q"
        (evaluate_search_result goodResult) goodResult "q" 0 [iterGood] =
      .ok ("q", 0, [iterGood]) :=
  ⟨rfl, c6_no_progress_stop oGood 3 2 "q" (evaluate_search_result goodResult)
    goodResult "q" 0 [iterGood] rfl oGood.search⟩

/-- C7: with budget `max_iterations = k ≥ 1`, the returned history has at
most `k` records. -/
theorem c7_budget_bound (o : Oracle) (init : String) (k : Nat) (hk : 1 ≤ k)
    (b : String) (h : List QueryIteration)
    (hrun : refine_query o init k = .ok (b, h)) : h.length ≤ k := by
  unfold refine_query at hrun
  cases hr : refineRun o init k with
  | error e => rw [hr] at hrun; cases hrun
  | ok r =>
    rw [hr] at hrun
    simp only [Except.map, Except.ok.injEq, Prod.mk.injEq] at hrun
    obtain ⟨hb, hh⟩ := hrun
    obtain ⟨-, -, -, hlen, -, -⟩ :=
      refineRun_ok_spec o init k r.1 r.2.1 r.2.2 (by rw [hr])
    subst hh
    omega

/-- Witness for C7 on the concrete one-iteration run with budget 5. -/
theorem c7_budget_bound_witness :
    1 ≤ 5 ∧ ([iterGood] : List QueryIteration).length ≤ 5 :=
  ⟨by omega, c7_budget_bound oGood "q" 5 (by omega) "q" [iterGood] refine_query_oGood⟩

/-- C8: `overall_score` is the fixed convex combination
`0.5·count_score + 0.3·primary + 0.1·review + 0.1·relevance` and is
monotonically non-decreasing in each component separately. -/
theorem c8_overall_monotone :
    (∀ r : PubMedSearchResult, (evaluate_search_result r).overall_score =
      overallFormula (evaluate_search_result r).count_score
        (evaluate_search_result r).primary_studies_ratio
        (evaluate_search_result r).systematic_reviews_ratio
        (evaluate_search_result r).average_relevance) ∧
    (∀ c c' p r v : ℚ, c ≤ c' →
      overallFormula c p r v ≤ overallFormula c' p r v) ∧
    (∀ c p p' r v : ℚ, p ≤ p' →
      overallFormula c p r v ≤ overallFormula c p' r v) ∧
    (∀ c p r r' v : ℚ, r ≤ r' →
      overallFormula c p r v ≤ overallFormula c p r' v) ∧
    (∀ c p r v v' : ℚ, v ≤ v' →
      overallFormula c p r v ≤ overallFormula c p r v') ∧
    (0.5 + 0.3 + 0.1 + 0.1 : ℚ) = 1 := by
  refine ⟨fun r => rfl, ?_, ?_, ?_, ?_, by norm_num⟩ <;>
    · intro c x x' y z hle
      simp only [overallFormula]
      linarith

/-- Witness for C8 at concrete component values. -/
theorem c8_overall_monotone_witness :
    (evaluate_search_result goodResult).overall_score =
      overallFormula (evaluate_search_result goodResult).count_score
        (evaluate_search_result goodResult).primary_studies_ratio
        (evaluate_search_result goodResult).systematic_reviews_ratio
        (evaluate_search_result goodResult).average_relevance ∧
    overallFormula 0 (1/2) 0 0 ≤ overallFormula 1 (1/2) 0 0 :=
  ⟨c8_overall_monotone.1 goodResult,
   c8_overall_monotone.2.1 0 1 (1/2) 0 0 (by norm_num)⟩

/-- C9: failing every abstract fetch only erases the recorded
`abstracts_sample` enrichment — same control flow, same best query, same
ok/error status — while any `.error` outcome of a run originates in a
search call, and a failing initial search propagates out of
`refine_query` as that very error with no history returned. -/
theorem c9_error_policy (o : Oracle) (init : String) (k : Nat) (e0 : String) :
    refineRun { o with fetchAbstracts := fun _ _ _ => .error e0 } init k
        = (refineRun o init k).map (fun r => (r.1, r.2.1, r.2.2.map clearSample)) ∧
    (∀ e, refineRun o init k = .error e → ∃ j q, o.search j q = .error e) ∧
    (∀ e, o.search 1 init = .error e → refine_query o init k = .error e) := by
  refine ⟨refineRun_failFetch e0 o init k,
    fun e he => refineRun_error_spec o init k e he, ?_⟩
  intro e hs
  simp [refine_query, refineRun, hs, Except.map]

/-- Witness for C9: the always-failing search oracle. -/
theorem c9_error_policy_witness :
    refineRun { oFail with fetchAbstracts := fun _ _ _ => .error "E" } "q" 3
        = (refineRun oFail "q" 3).map (fun r => (r.1, r.2.1, r.2.2.map clearSample)) ∧
    (∃ j q, oFail.search j q = .error "HTTP 503") ∧
    refine_query oFail "q" 3 = .error "HTTP 503" := by
  obtain ⟨h1, h2, h3⟩ := c9_error_policy oFail "q" 3 "E"
  exact ⟨h1, h2 "HTTP 503" rfl, h3 "HTTP 503" rfl⟩

/-- C10: every normal return of `refine_query` with budget ≥ 1 has a
non-empty history whose first record is iteration 1 on the initial query,
and the returned best query is the query of some recorded iteration. -/
theorem c10_audit_trail (o : Oracle) (init : String) (k : Nat) (hk : 1 ≤ k)
    (b : String) (h : List QueryIteration)
    (hrun : refine_query o init k = .ok (b, h)) :
    h ≠ [] ∧
    (∃ r1, h.head? = some r1 ∧ r1.iteration_number = 1 ∧ r1.query = init) ∧
    ∃ it ∈ h, it.query = b := by
  unfold refine_query at hrun
  cases hr : refineRun o init k with
  | error e => rw [hr] at hrun; cases hrun
  | ok r =>
    rw [hr] at hrun
    simp only [Except.map, Except.ok.injEq, Prod.mk.injEq] at hrun
    obtain ⟨hb, hh⟩ := hrun
    obtain ⟨hhead, ⟨it, hfb, hq⟩, -, -, -, hne⟩ :=
      refineRun_ok_spec o init k r.1 r.2.1 r.2.2 (by rw [hr])
    subst hb; subst hh
    unfold firstBest at hfb
    exact ⟨hne, hhead, it, List.mem_of_find?_eq_some hfb, hq⟩

/-- Witness for C10 on the concrete one-iteration run. -/
theorem c10_audit_trail_witness :
    ([iterGood] : List QueryIteration) ≠ [] ∧
    (∃ r1, ([iterGood] : List QueryIteration).head? = some r1 ∧
      r1.iteration_number = 1 ∧ r1.query = "q") ∧
    ∃ it ∈ ([iterGood] : List QueryIteration), it.query = "q" :=
  c10_audit_trail oGood "q" 5 (by omega) "q" [iterGood] refine_query_oGood

end PubMedAgent
